import Mathlib

/-!
Shallow embedding of the core of `lammps_step/lammps.py` (MolSSI lammps_step):
the checkpoint-file resolution in `LAMMPS.run`, the box/cell conversions
`LAMMPS.box_to_cell` and `LAMMPS.cell_to_box`, the convergence decision of the
run loop, the per-property statistical analysis of `LAMMPS.analyze_trajectory`,
the dump-file parser `LAMMPS.read_dump`, and the box-limits section of
`LAMMPS.structure_data`.

Machine floats of the Python source are modelled as exact rationals where the
code only moves and compares values, and as real numbers where it applies
`sqrt`, `cos` or `acos`.  Fallible code is modelled with `Except`.  The string
helpers below re-implement, by structural recursion on the character list, the
exact Python primitives the source calls (`str.split`, `in`, `str.strip`,
`os.path.splitext`, `int`, `str.replace`).
-/

namespace LammpsStep

/-! ## Python string helpers used by the source -/

/-- Worker for `pySplit`: group the maximal runs of non-whitespace characters,
accumulating the current run reversed. -/
def splitWsGo : List Char → List Char → List String
  | [], cur => if cur = [] then [] else [String.mk cur.reverse]
  | c :: rest, cur =>
    if c.isWhitespace then
      if cur = [] then splitWsGo rest []
      else String.mk cur.reverse :: splitWsGo rest []
    else splitWsGo rest (c :: cur)

/-- Python `str.split()` with no argument: split on runs of whitespace,
dropping empty fields. -/
def pySplit (s : String) : List String := splitWsGo s.data []

/-- Does the pattern occur at the head of the character list? -/
def headMatches : List Char → List Char → Bool
  | [], _ => true
  | _ :: _, [] => false
  | a :: as, b :: bs => a = b && headMatches as bs

/-- Does the pattern occur as a contiguous sublist? -/
def subOccurs (needle : List Char) : List Char → Bool
  | [] => headMatches needle []
  | c :: rest => headMatches needle (c :: rest) || subOccurs needle rest

/-- Python `needle in haystack` substring test. -/
def containsSub (haystack needle : String) : Bool :=
  subOccurs needle.data haystack.data

/-- Python `str.strip('.')`: remove leading and trailing `'.'` characters. -/
def stripDots (s : String) : String :=
  String.mk (((s.data.dropWhile (fun ch => ch = '.')).reverse.dropWhile
    (fun ch => ch = '.')).reverse)

/-- Split a character list at its last `'.'`: `some (before, after)` with the
dot belonging to neither part, or `none` when there is no dot. -/
def lastDotSplit : List Char → Option (List Char × List Char)
  | [] => none
  | c :: rest =>
    match lastDotSplit rest with
    | some (pre, ext) => some (c :: pre, ext)
    | none => if c = '.' then some ([], rest) else none

/-- Python `os.path.splitext`: split a filename at its last dot, the
extension keeping the dot.  (The source only applies it to plain
`base.dump.<n>` names, so the leading-dot special cases of `os.path` are not
exercised.) -/
def splitext (p : String) : String × String :=
  match lastDotSplit p.data with
  | none => (p, "")
  | some (pre, ext) => (String.mk pre, String.mk ('.' :: ext))

/-- Decimal digit value of a character, `none` for a non-digit. -/
def digitVal (c : Char) : Option ℕ :=
  if c.isDigit then some (c.toNat - 48) else none

/-- Parse a non-empty run of decimal digits, most significant first. -/
def parseDigits : List Char → ℕ → Option ℕ
  | [], acc => some acc
  | c :: rest, acc =>
    match digitVal c with
    | none => none
    | some d => parseDigits rest (acc * 10 + d)

/-- Python `int(s)` on the decimal strings the source feeds it (an optional
minus sign then digits); failure models `ValueError`. -/
def pyParseInt (s : String) : Option ℤ :=
  match s.data with
  | [] => none
  | '-' :: rest =>
    match rest with
    | [] => none
    | _ :: _ => (parseDigits rest 0).map (fun n => -(n : ℤ))
  | l => (parseDigits l 0).map (fun n => (n : ℤ))

/-- Python `s.replace('*', rep)`: the pattern the source substitutes is the
single character `'*'`. -/
def replaceStar (s : String) (rep : String) : String :=
  String.mk (s.data.foldr
    (fun c acc => if c = '*' then rep.data ++ acc else c :: acc) [])

/-- Python `str(n)` for an integer. -/
def pyStr (n : ℤ) : String := toString n

/-! ## Checkpoint resolution (`LAMMPS.run`, lines 604-624 and 903-924)

The source, after `accum_dump_filenames = glob.glob(...)`:

```text
if len(accum_dump_filenames) == 0: raise FileNotFoundError(...)
run_lengths = []
for accum_dump in accum_dump_filenames:
    try:
        pre, ext = os.path.splitext(accum_dump)
        ext = int(ext.strip('.'))
    except ValueError:
        raise Exception('Lammps_step: could not extract run length ...')
    run_lengths.append(ext)
    last_snapshot = str(max(run_lengths))
accum_dump = accum_dump.replace('*', last_snapshot)
self.read_dump(os.path.join(self.directory, accum_dump))
```

Note that the `for` loop rebinds `accum_dump` to each concrete matched
filename, so after the loop `accum_dump` is the last enumerated filename, and
the `replace('*', ...)` call acts on that concrete name, not on the glob
pattern. -/

/-- Extract the numeric suffix of one checkpoint filename exactly as the loop
body does: `int(os.path.splitext(f)[1].strip('.'))`. -/
def dumpSuffix (f : String) : Option ℤ :=
  pyParseInt (stripDots (splitext f).2)

/-- Fold of the source loop: accumulate `run_lengths` and remember the loop
variable `accum_dump`, which after the loop holds the last enumerated
filename. -/
def collectRunLengths : List String → List ℤ → Except String (List ℤ × String)
  | [], acc => .ok (acc, "")
  | f :: rest, acc =>
    match dumpSuffix f with
    | none =>
      .error ("Lammps_step: could not extract run length from dump file " ++ f)
    | some n =>
      match rest with
      | [] => .ok (acc ++ [n], f)
      | _ :: _ => collectRunLengths rest (acc ++ [n])

/-- Maximum of a list of integers, as `max(run_lengths)` (the list is
non-empty whenever the source evaluates it). -/
def listMax : List ℤ → ℤ
  | [] => 0
  | [n] => n
  | n :: rest => max n (listMax rest)

/-- The checkpoint-resolution step of `LAMMPS.run` on the list of filenames
returned by `glob.glob`, in enumeration order.  Returns the filename that is
actually passed to `self.read_dump` together with `last_snapshot`, the
maximal numeric suffix. -/
def resolveCheckpoint (files : List String) : Except String (String × ℤ) :=
  if files = [] then
    .error "Lammps_step: could not find any file with the pattern"
  else
    match collectRunLengths files [] with
    | .error e => .error e
    | .ok (runLengths, lastFile) =>
      let lastSnapshot := listMax runLengths
      .ok (replaceStar lastFile (pyStr lastSnapshot), lastSnapshot)

/-! ## Box/cell conversions (`LAMMPS.box_to_cell`, `LAMMPS.cell_to_box`,
lines 271-308)

Cell parameters and the LAMMPS box are six machine floats in the source,
modelled as real numbers because the conversions use `sqrt`, `cos` and
`acos`. -/

/-- Cell parameters `(a, b, c, alpha, beta, gamma)` as a record. -/
structure Cell where
  a : ℝ
  b : ℝ
  c : ℝ
  alpha : ℝ
  beta : ℝ
  gamma : ℝ

/-- The LAMMPS box `(lx, ly, lz, xy, xz, yz)` as a record. -/
structure Box where
  lx : ℝ
  ly : ℝ
  lz : ℝ
  xy : ℝ
  xz : ℝ
  yz : ℝ

/-- Python `math.radians`. -/
noncomputable def radians (x : ℝ) : ℝ := x * Real.pi / 180

/-- Python `math.degrees`. -/
noncomputable def degrees (x : ℝ) : ℝ := x * 180 / Real.pi

/-- `LAMMPS.cell_to_box` (lines 292-308).  Note the `else` branch of the
source assigns `lx = 0` and never overwrites it. -/
noncomputable def cell_to_box (c : Cell) : Box :=
  if c.alpha = 90 ∧ c.beta = 90 ∧ c.gamma = 90 then
    { lx := c.a, ly := c.b, lz := c.c, xy := 0, xz := 0, yz := 0 }
  else
    let lx : ℝ := 0
    let xy := c.b * Real.cos (radians c.gamma)
    let xz := c.c * Real.cos (radians c.beta)
    let ly := Real.sqrt (c.b ^ 2 - xy ^ 2)
    let yz := (c.b * c.c * Real.cos (radians c.alpha) - xy * xz) / ly
    let lz := Real.sqrt (c.c ^ 2 - xz ^ 2 - yz ^ 2)
    { lx := lx, ly := ly, lz := lz, xy := xy, xz := xz, yz := yz }

/-- `LAMMPS.box_to_cell` (lines 271-290).  Note the first branch of the
source returns `alpha = beta = gamma = 0.0`. -/
noncomputable def box_to_cell (b : Box) : Cell :=
  if b.xy = 0 ∧ b.xz = 0 ∧ b.yz = 0 then
    { a := b.lx, b := b.ly, c := b.lz, alpha := 0, beta := 0, gamma := 0 }
  else
    let a := b.lx
    let b' := Real.sqrt (b.ly ^ 2 + b.xy ^ 2)
    let c' := Real.sqrt (b.lz ^ 2 + b.xz ^ 2 + b.yz ^ 2)
    let alpha := degrees (Real.arccos ((b.xy * b.xz + b.lx * b.yz) / (b' * c')))
    let beta := degrees (Real.arccos (b.xz / c'))
    let gamma := degrees (Real.arccos (b.xy / b'))
    { a := a, b := b', c := c', alpha := alpha, beta := beta, gamma := gamma }

/-! ## Box-limits section of `LAMMPS.structure_data` (lines 958-975)

For a 3-periodic energy expression the source converts the cell to a box,
zeroes the tilt factors, and decides whether to emit the `xy xz yz` line:

```text
xy = xy if abs(xy) > 1.0e-06 else 0.0
xz = xz if abs(xy) > 1.0e-06 else 0.0
yz = yz if abs(xy) > 1.0e-06 else 0.0
if triclinic or xy > 0.0 or xz > 0.0 or yz > 0.0:
    lines.append('... xy xz yz')
```

The second and third conditions test the just-reassigned `xy`, not `xz` or
`yz`.  The function returns the tilt values of the emitted line, or `none`
when no line is emitted. -/

/-- Tilt-factor line decision of `LAMMPS.structure_data` for a 3-periodic
energy expression with the given cell. -/
noncomputable def structure_data_tilt (c : Cell) (triclinic : Bool) :
    Option (ℝ × ℝ × ℝ) :=
  let box := cell_to_box c
  let xy := if |box.xy| > 1 / 1000000 then box.xy else 0
  let xz := if |xy| > 1 / 1000000 then box.xz else 0
  let yz := if |xy| > 1 / 1000000 then box.yz else 0
  if triclinic = true ∨ xy > 0 ∨ xz > 0 ∨ yz > 0 then some (xy, xz, yz)
  else none

/-! ## Trajectory statistical analysis (`LAMMPS.analyze_trajectory`,
lines 1530-1692)

The per-column analysis calls two external pymbar routines,
`timeseries.detectEquilibration` and `timeseries.subsampleCorrelatedData`;
they are not part of this repository and are modelled as an abstract oracle
the analysis is parameterised over.  Sample values are exact rationals; the
one square root of the source (`sem = std / sqrt(n_samples)`) is kept in
squared form (`semSq = variance / n_samples`, so `sem = sqrt semSq`) to keep
the record decidable. -/

/-- Python `int(round(x))` for the non-negative floats the source feeds it:
round half to even, as `float.__round__`. -/
def pyRound (q : ℚ) : ℤ :=
  let f := ⌊q⌋
  let r := q - (f : ℚ)
  if r < 1 / 2 then f
  else if 1 / 2 < r then f + 1
  else if Even f then f else f + 1

/-- Abstract interface of the two pymbar calls: `detect` returns
`(t0, g, Neff_max)` and `subsample` returns the decorrelated indices into the
equilibrated tail. -/
structure EquilOracle where
  detect : List ℚ → ℕ × ℚ × ℚ
  subsample : List ℚ → ℚ → List ℕ

/-- Per-column output of the analysis loop body.  `semSq` is the square of
the source's `sem`; `nlags` is `none` exactly when the ACF computation is
skipped. -/
structure ColResult where
  mean : ℚ
  semSq : ℚ
  nSamples : ℕ
  shortProductionWarning : Bool
  nlags : Option ℤ
  fewNeffWarning : Bool
  tau : ℚ
  t0 : ℚ
deriving DecidableEq

/-- The decorrelated indices of one column, exactly as the source computes
them: `subsampleCorrelatedData(yy[conv:], g=inefficiency)`. -/
def equilIndices (o : EquilOracle) (yy : List ℚ) : List ℕ :=
  let (conv, g, _) := o.detect yy
  o.subsample (yy.drop conv) g

/-- Body of the per-column loop of `analyze_trajectory` (lines 1585-1681),
up to the `results[...]` writes: equilibration detection, decorrelation
(`none` models the `continue` on zero indices), point estimates, the ACF
decision with its `nlags` cap, and the two warnings. -/
def analyzeColumn (o : EquilOracle) (dtfs : ℚ) (yy : List ℚ) :
    Option ColResult :=
  let (conv, g, _) := o.detect yy
  let tau0 := dtfs * (g - 1) / 2
  let tau := if tau0 < dtfs / 2 then dtfs / 2 else tau0
  let t0 := (conv : ℚ) * dtfs
  let ytEquil := yy.drop conv
  let indices := o.subsample ytEquil g
  if indices = [] then none
  else
    let yn := indices.map (fun i => ytEquil.getD i 0)
    let n := yn.length
    let mean := yn.sum / (n : ℚ)
    let variance := (yn.map (fun x => (x - mean) ^ 2)).sum / (n : ℚ)
    let semSq := variance / (n : ℚ)
    let haveAcfWarning := decide (ytEquil.length < 10000)
    let nlagsOpt : Option ℤ :=
      if ytEquil.length < 10000 then none
      else
        let nlags := 4 * pyRound (g + 1 / 2)
        let cap : ℤ := (ytEquil.length : ℤ) / 2
        some (if nlags > cap then cap else nlags)
    some
      { mean := mean
        semSq := semSq
        nSamples := n
        shortProductionWarning := haveAcfWarning
        nlags := nlagsOpt
        fewNeffWarning := decide (n < 100)
        tau := tau
        t0 := t0 }

/-- Value stored under one key of the `results` dictionary. -/
inductive RVal where
  | num (q : ℚ)
  | nat (n : ℕ)
  | bool (b : Bool)
deriving DecidableEq

/-- The column loop of `analyze_trajectory` over the property columns of one
trajectory (`for column in data.columns[1:]`): returns the `results` entries
in write order together with the diagnostics printed for skipped columns
(the source prints `'Problem with column ' + column` and the offending
arrays before `continue`). -/
def analyzeTrajectory (o : EquilOracle) (dtfs : ℚ)
    (cols : List (String × List ℚ)) : List (String × RVal) × List String :=
  match cols with
  | [] => ([], [])
  | (name, ys) :: rest =>
    let tailResults := analyzeTrajectory o dtfs rest
    match analyzeColumn o dtfs ys with
    | none => (tailResults.1, ("Problem with column " ++ name) :: tailResults.2)
    | some r =>
      ((name, .num r.mean) ::
        (name ++ ",stderr", .num r.semSq) ::
        (name ++ ",n_sample", .nat r.nSamples) ::
        (name ++ ",short_production_warning", .bool r.shortProductionWarning) ::
        (name ++ ",few_neff_warning", .bool r.fewNeffWarning) ::
        tailResults.1,
       tailResults.2)

/-! ## Reporting buckets for the convergence and autocorrelation times
(lines 1649-1673) -/

/-- Unit classification of the convergence time `t0` (lines 1649-1660). -/
def conv_units (t0 : ℚ) : String × ℚ :=
  if t0 ≥ 1000000000 then ("ms", t0 / 1000000000)
  else if t0 ≥ 1000000 then ("ns", t0 / 1000000)
  else if t0 ≥ 1000 then ("ps", t0 / 1000)
  else ("fs", t0)

/-- Unit classification of the autocorrelation time `tau` (lines 1662-1673).
Textually the same cascade as `conv_units`. -/
def tau_units (tau : ℚ) : String × ℚ :=
  if tau ≥ 1000000000 then ("ms", tau / 1000000000)
  else if tau ≥ 1000000 then ("ns", tau / 1000000)
  else if tau ≥ 1000 then ("ps", tau / 1000)
  else ("fs", tau)

/-- Modelled from the spec's words for comparison (claim C4): classification
with bucket boundaries at `4*10^9`, `4*10^6` and `4*10^3` spacing units. -/
def spec_claimed_units (t : ℚ) : String :=
  if t ≥ 4000000000 then "ms"
  else if t ≥ 4000000 then "ns"
  else if t ≥ 4000 then "ps"
  else "fs"

/-! ## Convergence decision of the run loop (`LAMMPS.run`, lines 740-769)

The source:

```text
analysis = self.analyze(node=node)
if analysis['Epe,short_production_warning'] is False:
    if analysis['Epe,few_neff_warning'] is False:
        history_nodes = []
        input_data = initialization_header
        break
for idx, line in enumerate(new_input_data):
    if 'run' in line:
        new_line = new_input_data[idx].split()
        new_nsteps = int(new_line[1]) * 2
        new_line[1] = str(new_nsteps)
        new_input_data[idx] = '              '.join(new_line)
...
iteration = iteration + 1
```

Only the two `Epe` keys of the analysis dictionary are consulted. -/

/-- Dictionary lookup in the `results` entries (keys are written once per
column, so first match suffices). -/
def lookupR (k : String) : List (String × RVal) → Option RVal
  | [] => none
  | (k', v) :: rest => if k' = k then some v else lookupR k rest

/-- The convergence test of the run loop: both nested `if`s of the source,
which read exactly the keys `Epe,short_production_warning` and
`Epe,few_neff_warning`.  (A missing key raises `KeyError` in the source; the
claims only exercise analyses in which both keys are present.) -/
def convergedEpe (analysis : List (String × RVal)) : Bool :=
  (lookupR "Epe,short_production_warning" analysis == some (.bool false)) &&
  (lookupR "Epe,few_neff_warning" analysis == some (.bool false))

/-- Doubling of one input line as in the extend branch: lines containing
`run` get their second whitespace-separated word parsed as an integer,
doubled, and the words rejoined with 14 spaces.  (On a malformed `run` line
the source raises; the claims only exercise well-formed lines, modelled by
leaving such a line unchanged.) -/
def doubleRunLine (l : String) : String :=
  if containsSub l "run" then
    let ws := pySplit l
    match (ws.get? 1).bind pyParseInt with
    | some n => String.intercalate "              " (ws.set 1 (pyStr (n * 2)))
    | none => l
  else l

/-- The extend branch applied to every line of `new_input_data`. -/
def doubleRunLines (ls : List String) : List String := ls.map doubleRunLine

/-- State of the convergence-controlled run loop that the decision at lines
740-769 reads and writes.  `header` models `initialization_header`; `done`
models leaving the `while True` loop through `break`. -/
structure LoopState where
  header : List String
  historyNodes : List String
  inputData : List String
  newInputData : List String
  iteration : ℕ
  done : Bool
deriving DecidableEq

/-- One decision of the run loop on a produced analysis: either the segment
is accepted (history reset, input data reset to the initialization header,
loop exited) or the run lines are doubled and the iteration count
incremented for another pass. -/
def runLoopStep (analysis : List (String × RVal)) (st : LoopState) :
    LoopState :=
  if convergedEpe analysis then
    { st with historyNodes := [], inputData := st.header, done := true }
  else
    { st with newInputData := doubleRunLines st.newInputData,
              iteration := st.iteration + 1, done := false }

/-! ## Dump-file parsing (`LAMMPS.read_dump`, lines 1961-2062)

The parser walks the file line by line: an `ITEM: <name>` line closes the
current section (processing it) and opens a new one; any other line is
collected into the current section.  At end of file a trailing `ATOMS`
section is processed, then the system is updated.  A line is modelled either
as an `ITEM:` marker carrying the section name (`line[6:].strip()`) or as a
data line carrying its whitespace-separated numeric fields; numeric lexing
(`float`/`int` on the field strings) is abstracted into the rational fields,
with `int`'s integrality requirement kept as a denominator check. -/

/-- One line of a dump file. -/
inductive DumpLine where
  | item (rest : String)
  | data (fields : List ℚ)

/-- Parser state: the open section name, its collected lines, the
accumulated coordinates and the cell, once a `BOX BOUNDS` section has been
processed. -/
structure ParseState where
  sec : String
  secLines : List (List ℚ)
  xyz : List (ℚ × ℚ × ℚ)
  cell : Option Cell

/-- The per-line body of the `ATOMS` sections:
`id, x, y, z = tmp.split()` then `xyz.append(...)`; a line of any other
arity raises `ValueError` in the source. -/
def parseAtoms : List (List ℚ) → List (ℚ × ℚ × ℚ) →
    Except String (List (ℚ × ℚ × ℚ))
  | [], acc => .ok acc
  | l :: rest, acc =>
    match l with
    | [_, x, y, z] => parseAtoms rest (acc ++ [(x, y, z)])
    | _ => .error "ValueError: unpack"

/-- Processing of a completed section (lines 1998-2046): a `BOX BOUNDS`
section with an 8-word name is triclinic (three fields per line, tilt
factors), otherwise axis-aligned (two fields per line); a
`NUMBER OF ATOMS` section checks the declared count against the structure's
atom count; an `ATOMS` section collects coordinates.  Extra lines beyond
those the source indexes are ignored, as in the source. -/
noncomputable def processSection (nAtoms : ℕ) (st : ParseState) :
    Except String ParseState :=
  if containsSub st.sec "BOX BOUNDS" then
    if (pySplit st.sec).length = 8 then
      match st.secLines with
      | [xlob, xhib, xy] :: [ylob, yhib, xz] :: [zlo, zhi, yz] :: _ =>
        let xlo := xlob - min (min 0 xy) (min xz (xy + xz))
        let xhi := xhib - max (max 0 xy) (max xz (xy + xz))
        let ylo := ylob - min 0 yz
        let yhi := yhib - max 0 yz
        .ok { st with
          cell := some (box_to_cell
            ⟨(↑(xhi - xlo) : ℝ), (↑(yhi - ylo) : ℝ), (↑(zhi - zlo) : ℝ),
              (↑xy : ℝ), (↑xz : ℝ), (↑yz : ℝ)⟩) }
      | _ => .error "ValueError: unpack"
    else
      match st.secLines with
      | [xlo, xhi] :: [ylo, yhi] :: [zlo, zhi] :: _ =>
        .ok { st with
          cell := some
            ⟨(↑(xhi - xlo) : ℝ), (↑(yhi - ylo) : ℝ), (↑(zhi - zlo) : ℝ),
              90, 90, 90⟩ }
      | _ => .error "ValueError: unpack"
  else if st.sec = "NUMBER OF ATOMS" then
    match st.secLines with
    | [q] :: _ =>
      if q.den = 1 then
        if q.num ≠ (nAtoms : ℤ) then .error "Number of atoms has changed!"
        else .ok st
      else .error "ValueError: int"
    | _ :: _ => .error "ValueError: int"
    | [] => .error "IndexError"
  else if containsSub st.sec "ATOMS" then
    match parseAtoms st.secLines st.xyz with
    | .ok xyz => .ok { st with xyz := xyz }
    | .error e => .error e
  else .ok st

/-- The line loop of `read_dump` after the first line, plus the end-of-file
cleanup of a trailing `ATOMS` section. -/
noncomputable def goLines (nAtoms : ℕ) : ParseState → List DumpLine →
    Except String ParseState
  | st, [] =>
    if containsSub st.sec "ATOMS" then
      match parseAtoms st.secLines st.xyz with
      | .ok xyz => .ok { st with xyz := xyz }
      | .error e => .error e
    else .ok st
  | st, .item r :: rest =>
    match processSection nAtoms st with
    | .ok st' => goLines nAtoms { st' with sec := r, secLines := [] } rest
    | .error e => .error e
  | st, .data f :: rest =>
    goLines nAtoms { st with secLines := st.secLines ++ [f] } rest

/-- The whole line loop: the first line must be an `ITEM:` marker
(`RuntimeError` otherwise); an empty file never enters the loop. -/
noncomputable def readDumpLines (nAtoms : ℕ) (lines : List DumpLine) :
    Except String ParseState :=
  match lines with
  | [] => goLines nAtoms ⟨"", [], [], none⟩ []
  | .item r :: rest => goLines nAtoms ⟨r, [], [], none⟩ rest
  | .data _ :: _ => .error "The first line is incorrect!"

/-- The slice of `seamm.data.structure` that `read_dump` reads and writes:
periodicity, cell, the element list (whose length is the known atom count)
and the coordinates. -/
structure SysState where
  periodicity : ℕ
  cell : Cell
  elements : List String
  coordinates : List (ℚ × ℚ × ℚ)

/-- `LAMMPS.read_dump`: parse the dump file and update the system.  The
cell is assigned only when the periodicity is 3 (lines 2060-2062); reaching
that assignment without a processed `BOX BOUNDS` section is the source's
`NameError` on the unbound local `cell`. -/
noncomputable def read_dump (sys : SysState) (lines : List DumpLine) :
    Except String SysState :=
  match readDumpLines sys.elements.length lines with
  | .error e => .error e
  | .ok st =>
    if sys.periodicity = 3 then
      match st.cell with
      | some c => .ok { sys with cell := c, coordinates := st.xyz }
      | none => .error "NameError: cell"
    else .ok { sys with coordinates := st.xyz }

/-! ## Concrete fixtures used by the witnesses and counterexamples -/

/-- Discriminate success of an `Except`. -/
def exceptOk {ε α : Type} : Except ε α → Bool
  | .ok _ => true
  | .error _ => false

/-- Decidable equality for `Except`, used to evaluate concrete runs. -/
instance {ε α : Type} [DecidableEq ε] [DecidableEq α] : DecidableEq (Except ε α)
  | .error a, .error b =>
    if h : a = b then .isTrue (by rw [h]) else .isFalse (by simp [h])
  | .error _, .ok _ => .isFalse (by simp)
  | .ok _, .error _ => .isFalse (by simp)
  | .ok a, .ok b =>
    if h : a = b then .isTrue (by rw [h]) else .isFalse (by simp [h])

/-- A 3-periodic system of `n` atoms with a placeholder cell. -/
def mkSys (n : ℕ) : SysState :=
  { periodicity := 3
    cell := ⟨0, 0, 0, 0, 0, 0⟩
    elements := List.replicate n "H"
    coordinates := [] }

/-- A well-formed dump file with an axis-aligned box section declaring
`decl` atoms. -/
def orthoDump (decl : ℤ) : List DumpLine :=
  [.item "TIMESTEP", .data [0],
   .item "NUMBER OF ATOMS", .data [(decl : ℚ)],
   .item "BOX BOUNDS pp pp pp",
   .data [0, 10], .data [0, 10], .data [0, 10],
   .item "ATOMS id xu yu zu", .data [1, 1, 2, 3]]

/-- A well-formed dump file with a triclinic box section declaring `decl`
atoms. -/
def triDump (decl : ℤ) : List DumpLine :=
  [.item "TIMESTEP", .data [0],
   .item "NUMBER OF ATOMS", .data [(decl : ℚ)],
   .item "BOX BOUNDS xy xz yz pp pp pp",
   .data [0, 10, 1], .data [0, 10, 1], .data [0, 10, 1],
   .item "ATOMS id xu yu zu", .data [1, 1, 2, 3]]

/-- A concrete oracle for the pymbar calls: no burn-in, statistical
inefficiency `9/5`, and decorrelation keeping the first sample of a
non-empty tail. -/
def sampleOracle : EquilOracle where
  detect := fun _ => (0, 9 / 5, 1)
  subsample := fun ys _ => if ys = [] then [] else [0]

/-! ## Theorems -/

/-- Components of `box_to_cell` that agree between its two branches: the
returned `a` is the box's `lx` in both. -/
theorem box_to_cell_a (b : Box) : (box_to_cell b).a = b.lx := by
  unfold box_to_cell
  split <;> rfl

/-- C1: the checkpoint resolution of `LAMMPS.run` does not select the file
with the maximal step-count suffix: on the same two matching files it reads
the last enumerated one, so the two enumeration orders of
`base.dump.1000`/`base.dump.2000` make it read different files (the computed
maximal suffix `2000` is returned either way, but the `replace('*', ...)`
acts on a concrete filename and is a no-op). -/
theorem c1_checkpoint_selection_depends_on_order :
    resolveCheckpoint ["base.dump.2000", "base.dump.1000"]
      = .ok ("base.dump.1000", 2000) ∧
    resolveCheckpoint ["base.dump.1000", "base.dump.2000"]
      = .ok ("base.dump.2000", 2000) := by
  constructor
  · decide
  · decide

/-- C2: the cell/box round trip does not recover the cell parameters.  For
the orthogonal cell `(10,10,10,90,90,90)` the round trip returns angles
`0`, not `90` (the tilt factors are `0` as claimed); for
`(10,10,10,80,90,90)` the round trip returns `a = 0`, not `10`, because
`cell_to_box`'s non-orthogonal branch leaves `lx = 0`. -/
theorem c2_round_trip_fails :
    box_to_cell (cell_to_box ⟨10, 10, 10, 90, 90, 90⟩)
      = ⟨10, 10, 10, 0, 0, 0⟩ ∧
    cell_to_box ⟨10, 10, 10, 90, 90, 90⟩ = ⟨10, 10, 10, 0, 0, 0⟩ ∧
    (0 : ℝ) ≠ 90 ∧
    (box_to_cell (cell_to_box ⟨10, 10, 10, 80, 90, 90⟩)).a = 0 ∧
    (0 : ℝ) ≠ 10 := by
  have hb : cell_to_box ⟨10, 10, 10, 90, 90, 90⟩ = ⟨10, 10, 10, 0, 0, 0⟩ := by
    unfold cell_to_box
    rw [if_pos ⟨rfl, rfl, rfl⟩]
  refine ⟨?_, hb, by norm_num, ?_, by norm_num⟩
  · rw [hb]
    unfold box_to_cell
    rw [if_pos ⟨rfl, rfl, rfl⟩]
  · rw [box_to_cell_a]
    unfold cell_to_box
    rw [if_neg]
    intro hc
    exact absurd hc.1 (by norm_num)

/-- C4: the classification of convergence and autocorrelation times does not
use the claimed boundaries `4*10^9 / 4*10^6 / 4*10^3`: at `t = 2000` fs the
code reports picoseconds while the claimed boundaries keep femtoseconds. -/
theorem c4_counterexample :
    conv_units 2000 = ("ps", 2) ∧ tau_units 2000 = ("ps", 2) ∧
    spec_claimed_units 2000 = "fs" ∧ ("ps" : String) ≠ "fs" := by
  refine ⟨?_, ?_, ?_, by decide⟩
  · unfold conv_units
    norm_num
  · unfold tau_units
    norm_num
  · unfold spec_claimed_units
    norm_num

/-- C4 amended: the millisecond/nanosecond/picosecond buckets for the
convergence time and the autocorrelation time share one cascade with
boundaries `10^9`, `10^6` and `10^3` spacing units; below `10^3` the native
femtosecond unit is kept. -/
theorem c4_time_buckets (t : ℚ) :
    conv_units t = tau_units t ∧
    ((conv_units t).1 = "ms" ↔ 1000000000 ≤ t) ∧
    ((conv_units t).1 = "ns" ↔ 1000000 ≤ t ∧ t < 1000000000) ∧
    ((conv_units t).1 = "ps" ↔ 1000 ≤ t ∧ t < 1000000) ∧
    ((conv_units t).1 = "fs" ↔ t < 1000) := by
  unfold conv_units tau_units
  split_ifs with h1 h2 h3 <;>
    refine ⟨rfl, ?_, ?_, ?_, ?_⟩ <;>
    simp_all <;> first
      | linarith
      | (intro h; linarith)

/-- C3: the run loop's convergence decision does not require every analyzed
property to pass: on an analysis in which the property `T` reports
`few_neff_warning = true` while `Epe` passes both checks, the loop still
declares the segment converged (exits with the history reset). -/
theorem c3_counterexample :
    (runLoopStep
        [("Epe,short_production_warning", .bool false),
         ("Epe,few_neff_warning", .bool false),
         ("T,short_production_warning", .bool false),
         ("T,few_neff_warning", .bool true)]
        ⟨["units real"], ["2"], ["dump"], ["run              1000"], 0,
          false⟩).done = true ∧
    lookupR "T,few_neff_warning"
        [("Epe,short_production_warning", .bool false),
         ("Epe,few_neff_warning", .bool false),
         ("T,short_production_warning", .bool false),
         ("T,few_neff_warning", .bool true)] = some (.bool true) := by
  constructor
  · decide
  · decide

/-- C3 amended: the segment is declared converged (loop exited, chain
history reset to empty, input data reset to the initialization header) if
and only if the analysis reports `short_production_warning = false` and
`few_neff_warning = false` for the single property `Epe`; warnings of every
other analyzed property are ignored.  Otherwise the `run` lines are doubled
and the iteration count is incremented. -/
theorem c3_converged_iff_epe_warnings_false
    (analysis : List (String × RVal)) (st : LoopState) :
    ((runLoopStep analysis st).done = true ↔
      lookupR "Epe,short_production_warning" analysis = some (.bool false) ∧
      lookupR "Epe,few_neff_warning" analysis = some (.bool false)) ∧
    ((runLoopStep analysis st).done = true →
      (runLoopStep analysis st).historyNodes = [] ∧
      (runLoopStep analysis st).inputData = st.header) ∧
    ((runLoopStep analysis st).done = false →
      (runLoopStep analysis st).iteration = st.iteration + 1 ∧
      (runLoopStep analysis st).newInputData
        = doubleRunLines st.newInputData) := by
  unfold runLoopStep convergedEpe
  split_ifs with h
  · rw [Bool.and_eq_true, beq_iff_eq, beq_iff_eq] at h
    simp [h]
  · refine ⟨⟨fun hf => ?_, fun hp => ?_⟩, fun hd => ?_, fun _ => ⟨rfl, rfl⟩⟩
    · simp at hf
    · exact absurd
        (by rw [Bool.and_eq_true]
            exact ⟨beq_iff_eq.mpr hp.1, beq_iff_eq.mpr hp.2⟩) h
    · simp at hd

/-- C3 witness: the amended rule applied to a concrete converging analysis
and a concrete non-converging one. -/
theorem c3_converged_iff_epe_warnings_false_witness :
    (runLoopStep
        [("Epe,short_production_warning", .bool false),
         ("Epe,few_neff_warning", .bool false)]
        ⟨["h"], ["1"], ["a"], ["run 10"], 0, false⟩).historyNodes = [] ∧
    (runLoopStep
        [("Epe,short_production_warning", .bool true),
         ("Epe,few_neff_warning", .bool false)]
        ⟨["h"], ["1"], ["a"], ["run 10"], 0, false⟩).iteration = 1 := by
  constructor
  · exact ((c3_converged_iff_epe_warnings_false _ _).2.1
      ((c3_converged_iff_epe_warnings_false _ _).1.mpr
        ⟨by decide, by decide⟩)).1
  · exact ((c3_converged_iff_epe_warnings_false _ _).2.2 (by decide)).1

/-- C4 witness: the amended bucket rule applied at `t = 2000` fs yields the
picosecond bucket. -/
theorem c4_time_buckets_witness : (conv_units 2000).1 = "ps" :=
  (c4_time_buckets 2000).2.2.2.1.mpr ⟨by norm_num, by norm_num⟩

/-- Helper: a replicated list of positive length is not empty (kept in a
form whose proof term stays small on large lengths). -/
theorem replicate_pos_ne_nil (n : ℕ) (h : n ≠ 0) (a : ℚ) :
    List.replicate n a ≠ [] := by
  cases n with
  | zero => exact absurd rfl h
  | succ m => exact List.cons_ne_nil a (List.replicate m a)

/-- Helper: the head of a replicated list of positive length. -/
theorem getD_zero_replicate (n : ℕ) (h : n ≠ 0) (a d : ℚ) :
    (List.replicate n a).getD 0 d = a := by
  cases n with
  | zero => exact absurd rfl h
  | succ m => rfl

/-- Helper: the per-column analysis evaluated on a constant 10,000-sample
stream under `sampleOracle` (`g = 9/5`): the ACF branch is taken and
`nlags = 4 * round(9/5 + 1/2) = 8`. -/
theorem analyzeColumn_replicate_eval :
    analyzeColumn sampleOracle 1 (List.replicate 10000 0)
      = some ⟨0, 0, 1, false, some 8, true, 1 / 2, 0⟩ := by
  unfold analyzeColumn sampleOracle
  have hne : ¬(List.replicate 10000 (0 : ℚ)) = [] :=
    replicate_pos_ne_nil 10000 (by norm_num) 0
  simp only [List.drop_zero, if_neg hne, List.map_cons, List.map_nil,
    getD_zero_replicate 10000 (by norm_num) 0 0, List.length_replicate,
    List.sum_cons, List.sum_nil, List.length_cons, List.length_nil]
  norm_num [pyRound]

/-- C5: the number of ACF lags is not `4*ceil(g+0.5)`: at statistical
inefficiency `g = 9/5` on a 10000-sample equilibrated tail the code computes
`4*int(round(g+0.5)) = 8` lags (round half to even on `2.3` gives `2`)
while the claimed formula gives `min(4*ceil(2.3), 5000) = 12`. -/
theorem c5_nlags_round_not_ceil :
    analyzeColumn sampleOracle 1 (List.replicate 10000 0)
      = some ⟨0, 0, 1, false, some 8, true, 1 / 2, 0⟩ ∧
    min (4 * ⌈(9 : ℚ) / 5 + 1 / 2⌉)
      (((List.replicate 10000 (0 : ℚ)).length : ℤ) / 2) = 12 ∧
    ((8 : ℤ) ≠ 12) := by
  refine ⟨analyzeColumn_replicate_eval, ?_, by decide⟩
  have hc : ⌈(9 : ℚ) / 5 + 1 / 2⌉ = 3 := by
    rw [Int.ceil_eq_iff]
    constructor <;> norm_num
  rw [hc]
  simp only [List.length_replicate]
  omega

/-- C5 amended: on a stream whose equilibrated tail holds at least 10,000
samples the analyzer computes the ACF over
`min(4*int(round(g+0.5)), floor(len(tail)/2))` lags (round half to even) and
leaves `short_production_warning` false; with fewer than 10,000 samples the
ACF is skipped entirely and `short_production_warning` is set true. -/
theorem c5_acf_decision (o : EquilOracle) (dtfs : ℚ) (yy : List ℚ)
    (r : ColResult) (h : analyzeColumn o dtfs yy = some r) :
    ((yy.drop (o.detect yy).1).length < 10000 →
      r.shortProductionWarning = true ∧ r.nlags = none) ∧
    (10000 ≤ (yy.drop (o.detect yy).1).length →
      r.shortProductionWarning = false ∧
      r.nlags = some (min (4 * pyRound ((o.detect yy).2.1 + 1 / 2))
        (((yy.drop (o.detect yy).1).length : ℤ) / 2))) := by
  unfold analyzeColumn at h
  rcases hD : o.detect yy with ⟨conv, g, neff⟩
  rw [hD] at h
  dsimp only at h ⊢
  split at h
  · exact absurd h (by simp)
  · injection h with h
    subst h
    by_cases hlen : (yy.drop conv).length < 10000
    · constructor
      · intro _
        exact ⟨decide_eq_true hlen, if_pos hlen⟩
      · intro hge
        omega
    · constructor
      · intro hlt
        exact absurd hlt hlen
      · intro _
        refine ⟨decide_eq_false hlen, ?_⟩
        dsimp only
        rw [if_neg hlen]
        congr 1
        omega

/-- C5 witness: the amended rule applied to a concrete 10,000-sample
stream. -/
theorem c5_acf_decision_witness :
    (⟨0, 0, 1, false, some 8, true, 1 / 2, 0⟩ : ColResult).shortProductionWarning
        = false ∧
    (⟨0, 0, 1, false, some 8, true, 1 / 2, 0⟩ : ColResult).nlags
        = some (min
            (4 * pyRound
              ((sampleOracle.detect (List.replicate 10000 0)).2.1 + 1 / 2))
            ((((List.replicate 10000 (0 : ℚ)).drop
                (sampleOracle.detect (List.replicate 10000 0)).1).length : ℤ)
              / 2)) := by
  exact (c5_acf_decision sampleOracle 1 (List.replicate 10000 0) _
      analyzeColumn_replicate_eval).2
    (by
      rw [show (sampleOracle.detect (List.replicate 10000 (0 : ℚ))).1 = 0
            from rfl,
        List.drop_zero, List.length_replicate])

/-- C6: in every emitted per-column analysis record the
`few_neff_warning` flag is true exactly when the decorrelated sample count
is below 100. -/
theorem c6_few_neff_warning_iff (o : EquilOracle) (dtfs : ℚ) (yy : List ℚ)
    (r : ColResult) (h : analyzeColumn o dtfs yy = some r) :
    r.fewNeffWarning = true ↔ r.nSamples < 100 := by
  unfold analyzeColumn at h
  rcases hD : o.detect yy with ⟨conv, g, neff⟩
  rw [hD] at h
  dsimp only at h
  split at h
  · exact absurd h (by simp)
  · injection h with h
    subst h
    simp

/-- C6 witness: the warning rule applied to a concrete two-sample stream
whose decorrelation keeps one sample. -/
theorem c6_few_neff_warning_iff_witness :
    (⟨5, 0, 1, true, none, true, 1 / 2, 0⟩ : ColResult).fewNeffWarning
        = true ∧
    (⟨5, 0, 1, true, none, true, 1 / 2, 0⟩ : ColResult).nSamples < 100 := by
  have h : analyzeColumn sampleOracle 1 [5, 6]
      = some ⟨5, 0, 1, true, none, true, 1 / 2, 0⟩ := by
    unfold analyzeColumn sampleOracle
    have hne : ¬([5, 6] : List ℚ) = [] := by simp
    simp only [if_neg hne, List.drop_zero]
    norm_num
  exact ⟨(c6_few_neff_warning_iff sampleOracle 1 [5, 6] _ h).mpr (by decide),
    by decide⟩

/-- Helper: a column whose decorrelation yields no indices produces no
per-column record (the `continue` path of the loop body). -/
theorem analyzeColumn_eq_none (o : EquilOracle) (dtfs : ℚ) (yy : List ℚ)
    (h : equilIndices o yy = []) : analyzeColumn o dtfs yy = none := by
  unfold equilIndices at h
  unfold analyzeColumn
  rcases hD : o.detect yy with ⟨conv, g, neff⟩
  rw [hD] at h
  dsimp only at h ⊢
  rw [if_pos h]

/-- C7: a property column whose decorrelation yields zero independent
samples contributes no `results` entries at all — the remaining columns'
entries are exactly those of the trajectory without it — and a diagnostic
naming the column is printed; the analysis of the other columns
continues. -/
theorem c7_zero_sample_column_skipped (o : EquilOracle) (dtfs : ℚ)
    (pre post : List (String × List ℚ)) (c : String) (ys : List ℚ)
    (h : equilIndices o ys = []) :
    (analyzeTrajectory o dtfs (pre ++ (c, ys) :: post)).1
      = (analyzeTrajectory o dtfs (pre ++ post)).1 ∧
    ("Problem with column " ++ c)
      ∈ (analyzeTrajectory o dtfs (pre ++ (c, ys) :: post)).2 := by
  have hnone := analyzeColumn_eq_none o dtfs ys h
  induction pre with
  | nil =>
    simp [analyzeTrajectory, hnone]
  | cons p pre ih =>
    obtain ⟨hres, hmem⟩ := ih
    rcases hcol : analyzeColumn o dtfs p.2 with _ | r
    · constructor
      · simp only [List.cons_append, analyzeTrajectory, hcol]
        exact hres
      · simp only [List.cons_append, analyzeTrajectory, hcol]
        exact List.mem_cons_of_mem _ hmem
    · constructor
      · simp only [List.cons_append, analyzeTrajectory, hcol, List.append_eq]
        rw [hres]
      · simp only [List.cons_append, analyzeTrajectory, hcol]
        exact hmem

/-- C7 witness: a trajectory with columns `Epe`, `T`, `P` in which `T` has
no samples: the results equal those of the `Epe`/`P`-only trajectory and
the diagnostic names `T`. -/
theorem c7_zero_sample_column_skipped_witness :
    (analyzeTrajectory sampleOracle 1
        ([("Epe", [1, 2])] ++ ("T", []) :: [("P", [3, 4])])).1
      = (analyzeTrajectory sampleOracle 1
          ([("Epe", [1, 2])] ++ [("P", [3, 4])])).1 ∧
    ("Problem with column " ++ "T")
      ∈ (analyzeTrajectory sampleOracle 1
          ([("Epe", [1, 2])] ++ ("T", []) :: [("P", [3, 4])])).2 :=
  c7_zero_sample_column_skipped sampleOracle 1 [("Epe", [1, 2])]
    [("P", [3, 4])] "T" [] rfl

/-- C9: on a system whose periodicity is not 3, a successful `read_dump`
leaves the cell (and the rest of the system except the coordinates)
unchanged; the cell is assigned only when the periodicity equals 3. -/
theorem c9_cell_only_written_when_periodic (sys : SysState)
    (lines : List DumpLine) (sys' : SysState) (hp : sys.periodicity ≠ 3)
    (h : read_dump sys lines = .ok sys') :
    sys'.cell = sys.cell ∧ sys'.periodicity = sys.periodicity ∧
    sys'.elements = sys.elements := by
  unfold read_dump at h
  rcases hr : readDumpLines sys.elements.length lines with e | st <;>
    rw [hr] at h <;> dsimp only at h
  · exact absurd h (by simp)
  · rw [if_neg hp] at h
    injection h with h
    subst h
    exact ⟨rfl, rfl, rfl⟩

/-- C9 witness: a non-periodic one-atom system read from a concrete
axis-aligned dump keeps its cell (only the coordinates change). -/
theorem c9_cell_only_written_when_periodic_witness :
    (⟨0, ⟨1, 2, 3, 4, 5, 6⟩, ["H"], []⟩ : SysState).periodicity ≠ 3 ∧
    (⟨0, ⟨1, 2, 3, 4, 5, 6⟩, ["H"], [(1, 2, 3)]⟩ : SysState).cell
      = (⟨0, ⟨1, 2, 3, 4, 5, 6⟩, ["H"], []⟩ : SysState).cell :=
  ⟨by decide,
    (c9_cell_only_written_when_periodic ⟨0, ⟨1, 2, 3, 4, 5, 6⟩, ["H"], []⟩
      (orthoDump 1) ⟨0, ⟨1, 2, 3, 4, 5, 6⟩, ["H"], [(1, 2, 3)]⟩ (by decide)
      rfl).1⟩

/-- C10: for a 3-periodic energy expression whose cell converts to a box
with `|xy| ≤ 1e-6`, `structure_data` with `triclinic=False` emits no
`xy xz yz` line, whatever the values of `xz` and `yz`: the zeroing of all
three tilt factors tests only `xy`. -/
theorem c10_tilt_line_suppressed_by_xy (c : Cell)
    (h : |(cell_to_box c).xy| ≤ 1 / 1000000) :
    structure_data_tilt c false = none := by
  unfold structure_data_tilt
  have h1 : ¬ (|(cell_to_box c).xy| > 1 / 1000000) := not_lt.mpr h
  simp only [if_neg h1]
  norm_num

/-- C10 witness: the cell `(10,10,10,80,60,90)` converts to a box with
`xy = 0` but `xz = 5`, far above the tolerance, and still no tilt line is
emitted. -/
theorem c10_tilt_line_suppressed_by_xy_witness :
    |(cell_to_box ⟨10, 10, 10, 80, 60, 90⟩).xy| ≤ 1 / 1000000 ∧
    (cell_to_box ⟨10, 10, 10, 80, 60, 90⟩).xz = 5 ∧
    structure_data_tilt ⟨10, 10, 10, 80, 60, 90⟩ false = none := by
  have hxy : (cell_to_box ⟨10, 10, 10, 80, 60, 90⟩).xy = 0 := by
    unfold cell_to_box
    rw [if_neg (fun hc => absurd hc.1 (by norm_num))]
    show (10 : ℝ) * Real.cos (radians 90) = 0
    rw [show radians 90 = Real.pi / 2 by unfold radians; ring]
    rw [Real.cos_pi_div_two]
    ring
  have hxz : (cell_to_box ⟨10, 10, 10, 80, 60, 90⟩).xz = 5 := by
    unfold cell_to_box
    rw [if_neg (fun hc => absurd hc.1 (by norm_num))]
    show (10 : ℝ) * Real.cos (radians 60) = 5
    rw [show radians 60 = Real.pi / 3 by unfold radians; ring]
    rw [Real.cos_pi_div_three]
    norm_num
  have hle : |(cell_to_box ⟨10, 10, 10, 80, 60, 90⟩).xy| ≤ 1 / 1000000 := by
    rw [hxy]
    norm_num
  exact ⟨hle, hxz, c10_tilt_line_suppressed_by_xy _ hle⟩

/-- C8: parsing a well-formed dump file succeeds exactly when the declared
atom count equals the structure's known atom count — a mismatch is a fatal
error — and, when the counts match, both the axis-aligned and the triclinic
(tilt-factor) box-bounds formats are accepted. -/
theorem c8_atom_count_gate_both_box_formats (decl : ℤ) (n : ℕ) :
    exceptOk (read_dump (mkSys n) (orthoDump decl)) = decide (decl = (n : ℤ)) ∧
    exceptOk (read_dump (mkSys n) (triDump decl)) = decide (decl = (n : ℤ)) := by
  have f1 : containsSub "TIMESTEP" "BOX BOUNDS" = false := by decide
  have f2 : ¬("TIMESTEP" = "NUMBER OF ATOMS") := by decide
  have f3 : containsSub "TIMESTEP" "ATOMS" = false := by decide
  have f4 : containsSub "NUMBER OF ATOMS" "BOX BOUNDS" = false := by decide
  have f5 : containsSub "BOX BOUNDS pp pp pp" "BOX BOUNDS" = true := by decide
  have f6 : (pySplit "BOX BOUNDS pp pp pp").length = 5 := by decide
  have f7 : containsSub "ATOMS id xu yu zu" "ATOMS" = true := by decide
  have f8 : ((decl : ℚ)).den = 1 := Rat.den_intCast _
  have f9 : ((decl : ℚ)).num = decl := Rat.num_intCast _
  have f10 : containsSub "BOX BOUNDS xy xz yz pp pp pp" "BOX BOUNDS" = true := by
    decide
  have f11 : (pySplit "BOX BOUNDS xy xz yz pp pp pp").length = 8 := by decide
  have f12 : ((5 : ℕ) = 8) = False := by simp
  by_cases hd : decl = (n : ℤ)
  · have g : (decl = (n : ℤ)) = True := eq_true hd
    constructor <;>
      simp only [read_dump, readDumpLines, goLines, processSection, mkSys,
        orthoDump, triDump, parseAtoms, exceptOk, f1, f2, f3, f4, f5, f6, f7,
        f8, f9, f10, f11, f12, List.length_replicate, List.nil_append,
        List.append_nil, List.cons_append, List.singleton_append, ne_eq, g,
        not_true, if_pos, if_neg, if_true, if_false, Bool.false_eq_true,
        eq_self_iff_true, decide_True, reduceIte]
  · have g : (decl = (n : ℤ)) = False := eq_false hd
    constructor <;>
      simp only [read_dump, readDumpLines, goLines, processSection, mkSys,
        orthoDump, triDump, parseAtoms, exceptOk, f1, f2, f3, f4, f5, f6, f7,
        f8, f9, f10, f11, f12, List.length_replicate, List.nil_append,
        List.append_nil, List.cons_append, List.singleton_append, ne_eq, g,
        not_false_iff, if_pos, if_neg, if_true, if_false, Bool.false_eq_true,
        eq_self_iff_true, decide_False, reduceIte]

end LammpsStep
